import Mathlib

/-!
Verification of the client-side orchestration core of the YouTube NLP
Assistant browser extension (popup.js, content.js, background.js) against
its natural-language specification.  The JavaScript is shallowly embedded:
request bodies are association lists of JSON values, HTTP responses are a
record of the fields the extension inspects, and the DOM-backed segment
"cache" and page-context tracker are explicit state machines whose steps
mirror the event handlers in the source.
-/

namespace YoutubeBot

/-- JSON values that occur in the extension's request bodies.
`JSON.stringify` keeps a `null`-valued property, so `jnull` is a value,
not an absent field. -/
inductive Jval where
  | jnull
  | jstr (s : String)
  | jnum (n : Int)
  deriving DecidableEq, Repr

/-- A JSON object body, as the ordered field list produced by
`JSON.stringify` on an object literal. -/
abbrev Body := List (String × Jval)

/-- A nullable JavaScript string value (`null` becomes JSON `null`). -/
def jOfOptStr : Option String → Jval
  | some s => .jstr s
  | none => .jnull

/-- Body of the generic fetch in `processFeature` (popup.js 172-176):
`{videoId, minLength: 150, maxLength: 300}` for every feature routed
through the endpoint table. -/
def popupGenericBody (videoId : String) : Body :=
  [("videoId", .jstr videoId), ("minLength", .jnum 150), ("maxLength", .jnum 300)]

/-- Body of the dedicated keypoints fetch inside the `keypoints_wiki`
case of `processFeature` (popup.js 229-238). -/
def keypointsWikiBody (videoId : String) : Body :=
  [("videoId", .jstr videoId), ("numPoints", .jnum 8)]

/-- Body of the segment-summary fetch in the timestamp-item click handler
(popup.js 414-423 and content.js 346-355). -/
def segmentSummaryBody (videoId : Option String) (segmentId : Int) : Body :=
  [("videoId", jOfOptStr videoId), ("segmentId", .jnum segmentId)]

/-- Body of the `quickSummarize` fetch (content.js 105-115). -/
def quickSummarizeBody (videoId : Option String) : Body :=
  [("videoId", jOfOptStr videoId), ("minLength", .jnum 100), ("maxLength", .jnum 200)]

/-- Body of the `quickKeyPointsWiki` fetch (content.js 150-159). -/
def quickKeyPointsWikiBody (videoId : Option String) : Body :=
  [("videoId", jOfOptStr videoId), ("numPoints", .jnum 5)]

/-- Body of the `quickTimestamps` fetch (content.js 280-288). -/
def quickTimestampsBody (videoId : Option String) : Body :=
  [("videoId", jOfOptStr videoId)]

/-- The features a popup card can carry in `data-feature`.  `other`
covers cards whose feature has no backend endpoint. -/
inductive Feature where
  | summarize
  | timestamps
  | keypoints_wiki
  | factcheck
  | other (name : String)
  deriving DecidableEq, Repr

/-- The hardcoded backend base URL. -/
def baseUrl : String := "http://localhost:5000"

/-- The `apiEndpoints` table in `processFeature` (popup.js 146-151);
features absent from the table get a placeholder and no request. -/
def apiEndpoints : Feature → Option String
  | .summarize => some (baseUrl ++ "/api/summarize")
  | .timestamps => some (baseUrl ++ "/api/timestamps")
  | .keypoints_wiki => some (baseUrl ++ "/api/keypoints_wiki")
  | .factcheck => some (baseUrl ++ "/api/factcheck")
  | .other _ => none

/-- The parts of an HTTP response the extension ever inspects:
`response.ok`, `response.status`, and the `status`, `error`, `summary`
and `formatted_time` fields of the parsed JSON body (each `Option`
because the field may be absent). -/
structure HttpResp where
  ok : Bool
  statusCode : Nat
  bodyStatus : Option String
  bodyError : Option String
  bodySummary : Option String
  bodyFormattedTime : Option String
  deriving DecidableEq, Repr

/-- `data.error || 'Unknown error occurred'` — JavaScript falsiness makes
both an absent and an empty `error` field fall back to the generic
message. -/
def errorOrDefault : Option String → String
  | some s => if s = "" then "Unknown error occurred" else s
  | none => "Unknown error occurred"

/-- The terminal outcome of one dispatched request: either the success
path proceeds with the response body, or an error message is rendered. -/
inductive FeatureResult where
  | success (resp : HttpResp)
  | error (message : String)
  deriving DecidableEq, Repr

/-- Response classification of the generic fetch in `processFeature`
(popup.js 178-187): a non-ok HTTP status throws
`API responded with status N`; then a body whose `status` field equals
`"error"` (and only that value) throws the body's `error` message. -/
def processFeatureResult (resp : HttpResp) : FeatureResult :=
  if !resp.ok then
    .error ("API responded with status " ++ toString resp.statusCode)
  else if resp.bodyStatus = some "error" then
    .error (errorOrDefault resp.bodyError)
  else
    .success resp

/-- Response classification of the segment-summary fetch
(popup.js 424-441, content.js 356-366): the response is parsed as JSON
with no `response.ok` or status-code check; a body `status` of
`"success"` succeeds, anything else throws the body's `error` message. -/
def segmentSummaryResult (resp : HttpResp) : FeatureResult :=
  if resp.bodyStatus = some "success" then
    .success resp
  else
    .error (errorOrDefault resp.bodyError)

/-- Response classification of the content script's quick handlers
`quickSummarize` / `quickKeyPointsWiki` / `quickTimestamps`
(content.js 116-132, 160-168, 289-296): non-ok HTTP status throws
`API responded with status N`; then any body `status` other than
`"success"` throws the body's `error` message. -/
def quickActionResult (resp : HttpResp) : FeatureResult :=
  if !resp.ok then
    .error ("API responded with status " ++ toString resp.statusCode)
  else if resp.bodyStatus = some "success" then
    .success resp
  else
    .error (errorOrDefault resp.bodyError)

/-- JavaScript's `String.prototype.trim`: strip whitespace from both
ends, embedded structurally over the character list. -/
def strTrim (s : String) : String :=
  String.mk (((s.data.dropWhile Char.isWhitespace).reverse.dropWhile
    Char.isWhitespace).reverse)

/-- Occurrence test for one character list inside another: `pat` occurs
in `l` iff it is a prefix of some suffix of `l`. -/
def listOccurs (pat : List Char) : List Char → Bool
  | [] => pat.isPrefixOf []
  | c :: rest => pat.isPrefixOf (c :: rest) || listOccurs pat rest

/-- Decidable substring test: does `pat` occur in `s`? -/
def strContains (s pat : String) : Bool :=
  listOccurs pat.data s.data

/-- The ordered list of `(url, body)` POSTs issued by `processFeature`
for one card activation (popup.js 144-293), given the response to the
generic fetch.  The generic fetch always goes to the feature's endpoint;
when the feature is `keypoints_wiki` and the generic fetch resolved ok
with a body status other than `"error"`, the `keypoints_wiki` case
issues a second, dedicated fetch to the same endpoint (popup.js
228-293). -/
def processFeatureRequests (feature : Feature) (videoId : String)
    (resp1 : HttpResp) : List (String × Body) :=
  match apiEndpoints feature with
  | none => []
  | some url =>
    (url, popupGenericBody videoId) ::
      (if feature = .keypoints_wiki ∧ resp1.ok = true ∧ resp1.bodyStatus ≠ some "error" then
        [(baseUrl ++ "/api/keypoints_wiki", keypointsWikiBody videoId)]
      else [])

/-- What a segment's summary container (`#segment-container-N`) holds:
nothing, the loading placeholder, a rendered summary, or a rendered error
— all three non-empty states carry the `.segment-summary` element. -/
inductive SegContent where
  | empty
  | loading
  | ready (summary : Option String) (formattedTime : Option String)
  | failed (message : String)
  deriving DecidableEq, Repr

/-- DOM-backed per-segment cache entry: the container's content plus
whether the container carries the `hidden` class. -/
structure SegPanel where
  content : SegContent
  hidden : Bool
  deriving DecidableEq, Repr

/-- A freshly rendered timestamps panel: every segment container is empty
and visible (popup.js 213-224). -/
def SegPanel.start : SegPanel := ⟨.empty, false⟩

/-- The timestamp-item click handler for one segment (popup.js 399-423,
content.js 318-355): when the container already has content
(`innerHTML.trim() !== ''`) the click only toggles the `hidden` class and
returns; otherwise it renders the loading placeholder and issues the
segment-summary fetch.  The returned flag records whether a fetch was
issued by this click.  (The handler also asks the player to seek, which
is not a backend request.) -/
def segClick (st : SegPanel) : SegPanel × Bool :=
  if st.content ≠ .empty then
    ({ st with hidden := !st.hidden }, false)
  else
    ({ st with content := .loading }, true)

/-- Arrival of the segment-summary response (popup.js 424-456,
content.js 356-374): the handler rewrites the `#segment-summary-N`
element, which exists exactly while the container holds it; on a body
status of `"success"` it renders the summary, otherwise the error
message. -/
def segResolve (resp : HttpResp) (st : SegPanel) : SegPanel :=
  if st.content = .loading then
    match segmentSummaryResult resp with
    | .success r => { st with content := .ready r.bodySummary r.bodyFormattedTime }
    | .error m => { st with content := .failed m }
  else st

/-- The popup back-button handler (popup.js 135-142): it removes every
`.segment-summary` element, emptying the segment container whatever
state it was in. -/
def segBack (st : SegPanel) : SegPanel :=
  { st with content := .empty }

/-- The events that can reach one segment's container during a popup
session: a click on its timestamp item, the arrival of its
segment-summary response, and a press of the back button. -/
inductive SegEvent where
  | click
  | resolve (resp : HttpResp)
  | back
  deriving DecidableEq, Repr

/-- One event step on a segment container; the flag records whether the
event issued a segment-summary fetch. -/
def segStep (st : SegPanel) : SegEvent → SegPanel × Bool
  | .click => segClick st
  | .resolve r => (segResolve r st, false)
  | .back => (segBack st, false)

/-- Run a sequence of events on a segment container, returning the final
state and the total number of segment-summary fetches issued. -/
def segRun (st : SegPanel) : List SegEvent → SegPanel × Nat
  | [] => (st, 0)
  | e :: rest =>
    let p := segStep st e
    let q := segRun p.1 rest
    (q.1, (if p.2 then 1 else 0) + q.2)

/-- How far a segment entry has progressed: no entry, pending, terminal. -/
def SegContent.rank : SegContent → Nat
  | .empty => 0
  | .loading => 1
  | .ready _ _ => 2
  | .failed _ => 2

/-- The page facts the content script reads: whether the URL is a watch
page, the `v` query parameter, and the text of the title heading when
one of the three selectors matches. -/
structure PageDom where
  isWatchPage : Bool
  vParam : Option String
  titleElement : Option String
  deriving DecidableEq, Repr

/-- The content script's module-level globals `currentVideoId` and
`currentVideoTitle` (content.js 2-3), both initially `null`. -/
structure PageContext where
  currentVideoId : Option String
  currentVideoTitle : Option String
  deriving DecidableEq, Repr

/-- The content script's `initialize` function (content.js 7-32): on a
watch page it reads the `v` parameter and the title heading, falling back
to the literal `"YouTube Video"` when no heading matches; elsewhere the
globals stay `null`. -/
def initPage (dom : PageDom) : PageContext :=
  if dom.isWatchPage then
    { currentVideoId := dom.vParam
      currentVideoTitle :=
        match dom.titleElement with
        | some t => some (strTrim t)
        | none => some "YouTube Video" }
  else
    { currentVideoId := none, currentVideoTitle := none }

/-- One firing of the `observeVideoChanges` mutation callback
(content.js 35-54) against the current page facts: on a watch page whose
`v` parameter is truthy and differs from the stored id, it stores the new
id and re-reads the title heading — but when no heading matches, the old
title is left in place (no fallback branch exists here). -/
def videoChangeStep (dom : PageDom) (st : PageContext) : PageContext :=
  if dom.isWatchPage then
    match dom.vParam with
    | some nv =>
      if nv ≠ "" ∧ some nv ≠ st.currentVideoId then
        { currentVideoId := some nv
          currentVideoTitle :=
            match dom.titleElement with
            | some t => some (strTrim t)
            | none => st.currentVideoTitle }
      else st
    | none => st
  else st

/-- The actions a `chrome.runtime` message can carry to the content
script. -/
inductive MsgAction where
  | navigateToTime
  | getVideoDetails
  | verifyConnection
  | quickSummarize
  | quickKeyPointsWiki
  | quickTimestamps
  | unknown (name : String)
  deriving DecidableEq, Repr

/-- The shapes `sendResponse` is called with inside the listener. -/
inductive MsgResponse where
  | status (s : String)
  | videoDetails (id : Option String) (title : Option String)
  deriving DecidableEq, Repr

/-- The `chrome.runtime.onMessage` listener body (content.js 63-272),
as the response it sends for each action, `none` when the listener body
never calls `sendResponse` for it.  `videoPresent` abstracts whether
`navigateToVideoTime` finds a `<video>` element.  The branches for
`quickTimestamps` and the unknown-action default are NOT in the listener:
that code sits at top level after the listener closes (content.js
275-396), where `request` is not in scope, so the listener falls through
for those actions without responding. -/
def onMessageResponse (dom : PageDom) (ctx : PageContext)
    (videoPresent : Bool) : MsgAction → Option MsgResponse
  | .navigateToTime =>
    some (.status (if videoPresent then "success" else "error"))
  | .getVideoDetails =>
    let title :=
      if ctx.currentVideoTitle = none ∨ ctx.currentVideoTitle = some ""
          ∨ ctx.currentVideoTitle = some "YouTube Video" then
        match dom.titleElement with
        | some t => some (strTrim t)
        | none => ctx.currentVideoTitle
      else ctx.currentVideoTitle
    some (.videoDetails ctx.currentVideoId title)
  | .verifyConnection => some (.status "connected")
  | .quickSummarize => some (.status "processing")
  | .quickKeyPointsWiki => some (.status "processing")
  | .quickTimestamps => none
  | .unknown _ => none

/-- The popup card click handler's dispatch guard (popup.js 62-93):
`if (!currentVideoId || this.classList.contains('disabled')) return;` —
the feature is dispatched only with the video id returned here
(JavaScript falsiness: both `null` and the empty string abort). -/
def cardClickDispatch (currentVideoId : Option String) (disabled : Bool) :
    Option String :=
  match currentVideoId with
  | none => none
  | some v => if v = "" ∨ disabled then none else some v

/-- A successful segment-summary / keypoints response, for concrete runs. -/
def respOk : HttpResp :=
  { ok := true, statusCode := 200, bodyStatus := some "success",
    bodyError := none, bodySummary := some "s", bodyFormattedTime := some "0:12" }

/-- An HTTP 500 whose JSON body reports an application error. -/
def resp500 : HttpResp :=
  { ok := false, statusCode := 500, bodyStatus := some "error",
    bodyError := some "boom", bodySummary := none, bodyFormattedTime := none }

/-- An ok response whose body status is neither "success" nor "error". -/
def respProcessing : HttpResp :=
  { ok := true, statusCode := 200, bodyStatus := some "processing",
    bodyError := some "e", bodySummary := none, bodyFormattedTime := none }

/-- An ok response carrying an application error message. -/
def respQuota : HttpResp :=
  { ok := true, statusCode := 200, bodyStatus := some "error",
    bodyError := some "quota exceeded", bodySummary := none,
    bodyFormattedTime := none }

/-- A watch page for video "A" whose title heading reads "Old Title". -/
def domA : PageDom := ⟨true, some "A", some "Old Title"⟩

/-- A watch page for video "B" on which no title heading matches. -/
def domB : PageDom := ⟨true, some "B", none⟩

/-- A watch URL carrying no `v` parameter and no title heading. -/
def domNoV : PageDom := ⟨true, none, none⟩

/- ------------------------------------------------------------------ -/
/- Helper lemmas                                                       -/
/- ------------------------------------------------------------------ -/

theorem isPrefixOf_self (l : List Char) : l.isPrefixOf l = true := by
  induction l with
  | nil => rfl
  | cons c r ih => simp [List.isPrefixOf, ih]

theorem listOccurs_append_self (pat : List Char) :
    ∀ l : List Char, listOccurs pat (l ++ pat) = true := by
  intro l
  induction l with
  | nil =>
    cases pat with
    | nil => rfl
    | cons c r => simp [listOccurs, isPrefixOf_self]
  | cons d l ih => simp [listOccurs, ih]

theorem strContains_append_right (s t : String) :
    strContains (s ++ t) t = true := by
  have hdata : (s ++ t).data = s.data ++ t.data := rfl
  unfold strContains
  rw [hdata]
  exact listOccurs_append_self t.data s.data

theorem segClick_of_ne_empty (st : SegPanel) (h : st.content ≠ .empty) :
    segClick st = ({ st with hidden := !st.hidden }, false) := by
  simp [segClick, h]

theorem segClick_of_empty (st : SegPanel) (h : st.content = .empty) :
    segClick st = ({ st with content := .loading }, true) := by
  simp [segClick, h]

theorem segResolve_of_not_loading (r : HttpResp) (st : SegPanel)
    (h : st.content ≠ .loading) : segResolve r st = st := by
  simp [segResolve, h]

theorem segResolve_content_ne_empty (r : HttpResp) (st : SegPanel)
    (h : st.content ≠ .empty) : (segResolve r st).content ≠ .empty := by
  unfold segResolve
  split
  · cases segmentSummaryResult r <;> simp
  · exact h

/-- Once a segment container is non-empty, a back-free event sequence
issues no further fetch and the container stays non-empty. -/
theorem segRun_nonempty_no_fetch :
    ∀ (evs : List SegEvent) (st : SegPanel), SegEvent.back ∉ evs →
      st.content ≠ .empty →
      (segRun st evs).2 = 0 ∧ (segRun st evs).1.content ≠ .empty := by
  intro evs
  induction evs with
  | nil => intro st _ h; exact ⟨rfl, h⟩
  | cons e rest ih =>
    intro st hnb h
    have hnb' : SegEvent.back ∉ rest := fun hm => hnb (List.mem_cons_of_mem _ hm)
    have hne : e ≠ SegEvent.back := fun he => hnb (he ▸ List.mem_cons_self _ _)
    cases e with
    | click =>
      have hstep : segStep st .click = ({ st with hidden := !st.hidden }, false) :=
        segClick_of_ne_empty st h
      have hrest := ih ({ st with hidden := !st.hidden }) hnb' (by simpa using h)
      simp only [segRun, hstep]
      simpa using hrest
    | resolve r =>
      have hcont : (segResolve r st).content ≠ .empty :=
        segResolve_content_ne_empty r st h
      have hrest := ih (segResolve r st) hnb' hcont
      simp only [segRun, segStep]
      simpa using hrest
    | back => exact absurd rfl hne

/-- From an empty container, a back-free event sequence issues at most
one fetch. -/
theorem segRun_empty_at_most_one :
    ∀ (evs : List SegEvent) (st : SegPanel), SegEvent.back ∉ evs →
      st.content = .empty → (segRun st evs).2 ≤ 1 := by
  intro evs
  induction evs with
  | nil => intro st _ _; simp [segRun]
  | cons e rest ih =>
    intro st hnb h
    have hnb' : SegEvent.back ∉ rest := fun hm => hnb (List.mem_cons_of_mem _ hm)
    have hne : e ≠ SegEvent.back := fun he => hnb (he ▸ List.mem_cons_self _ _)
    cases e with
    | click =>
      have hstep : segStep st .click = ({ st with content := .loading }, true) :=
        segClick_of_empty st h
      have hrest := segRun_nonempty_no_fetch rest ({ st with content := .loading })
        hnb' (by simp)
      simp only [segRun, hstep]
      simp [hrest.1]
    | resolve r =>
      have hr : segResolve r st = st :=
        segResolve_of_not_loading r st (by simp [h])
      have hrest := ih st hnb' h
      simp only [segRun, segStep, hr]
      simpa using hrest
    | back => exact absurd rfl hne

/- ------------------------------------------------------------------ -/
/- Claim theorems                                                      -/
/- ------------------------------------------------------------------ -/

/-- C1 counterexample: within one popup session, clicking a segment
(its fetch goes out), pressing back (popup.js 138-141 removes the
`.segment-summary` element, emptying the container), and clicking the
same segment again after the timestamps panel re-renders issues a
SECOND fetch to /api/segment_summary for that segmentId.  The trace
contains no response event — checked by the second conjunct — so the
second fetch is issued before the first result arrives: two fetches for
the same segmentId are in flight at once, refuting the claimed
at-most-one-in-flight invariant. -/
theorem concurrent_segment_fetches_cex :
    (segRun SegPanel.start [.click, .back, .click]).2 = 2 ∧
    ([SegEvent.click, SegEvent.back, SegEvent.click].all fun e =>
      match e with
      | SegEvent.resolve _ => false
      | _ => true) = true := by
  decide

/-- C1 amended: while one timestamps panel stays open (no back press),
at most one segment-summary fetch is ever issued per segmentId — a
second click while the first fetch is pending toggles visibility
instead of fetching, so the double-click trace issues exactly one
fetch.  Pressing the back button, however, empties the containers, and
re-clicking the segment after the panel re-renders issues a second
fetch even while the first is unresolved: the at-most-one-in-flight
invariant holds per panel lifetime, not per popup session. -/
theorem seg_fetch_once_per_panel :
    (∀ evs : List SegEvent, SegEvent.back ∉ evs →
      (segRun SegPanel.start evs).2 ≤ 1) ∧
    (segRun SegPanel.start [.click, .click]).2 = 1 := by
  constructor
  · intro evs hnb
    exact segRun_empty_at_most_one evs SegPanel.start hnb rfl
  · decide

/-- Witness for C1's amended theorem at the concrete double-click
trace. -/
theorem seg_fetch_once_per_panel_witness :
    (segRun SegPanel.start [SegEvent.click, SegEvent.click]).2 ≤ 1 :=
  seg_fetch_once_per_panel.1 [SegEvent.click, SegEvent.click] (by decide)

/-- C2: clicking the timestamp item of a segment whose container is
`ready` or `failed` issues no fetch, leaves the cached content untouched,
and only toggles the `hidden` class — a pure display operation. -/
theorem seg_toggle_pure_display :
    ∀ st : SegPanel,
      ((∃ s ft, st.content = .ready s ft) ∨ (∃ m, st.content = .failed m)) →
      segClick st = ({ st with hidden := !st.hidden }, false) := by
  intro st h
  have hne : st.content ≠ .empty := by
    rcases h with ⟨s, ft, hc⟩ | ⟨m, hc⟩ <;> simp [hc]
  exact segClick_of_ne_empty st hne

/-- Witness for C2 at a concrete ready container. -/
theorem seg_toggle_pure_display_witness :
    segClick ⟨.ready (some "s") (some "0:12"), false⟩
      = (⟨.ready (some "s") (some "0:12"), true⟩, false) :=
  seg_toggle_pure_display ⟨.ready (some "s") (some "0:12"), false⟩
    (Or.inl ⟨some "s", some "0:12", rfl⟩)

/-- C3 counterexample: selecting the keypoints_wiki card issues TWO
POSTs to /api/keypoints_wiki from a single user action — the generic
dispatch and the dedicated fetch in the feature branch — refuting
"exactly one POST". -/
theorem popup_keypoints_double_post :
    ((processFeatureRequests .keypoints_wiki "abc" respOk).filter
      (fun p => p.1 = baseUrl ++ "/api/keypoints_wiki")).length = 2 := by
  decide

/-- C3 amended: summarize, timestamps and factcheck each issue exactly
one POST to the fixed base URL plus their path per action; keypoints_wiki
issues two sequential POSTs to /api/keypoints_wiki when the first
resolves successfully (never two in flight at once: the second is sent
only after the first response arrives), and one otherwise. -/
theorem popup_post_counts :
    ∀ (v : String) (r : HttpResp),
      processFeatureRequests .summarize v r
        = [(baseUrl ++ "/api/summarize", popupGenericBody v)] ∧
      processFeatureRequests .timestamps v r
        = [(baseUrl ++ "/api/timestamps", popupGenericBody v)] ∧
      processFeatureRequests .factcheck v r
        = [(baseUrl ++ "/api/factcheck", popupGenericBody v)] ∧
      (∀ p ∈ processFeatureRequests .keypoints_wiki v r,
        p.1 = baseUrl ++ "/api/keypoints_wiki") ∧
      (processFeatureRequests .keypoints_wiki v r).length =
        (if r.ok = true ∧ r.bodyStatus ≠ some "error" then 2 else 1) := by
  intro v r
  refine ⟨rfl, rfl, rfl, ?_, ?_⟩
  · intro p hp
    unfold processFeatureRequests apiEndpoints at hp
    by_cases hc : r.ok = true ∧ r.bodyStatus ≠ some "error"
    · simp [hc] at hp
      rcases hp with h | h <;> simp [h]
    · simp [hc] at hp
      simp [hp]
  · unfold processFeatureRequests apiEndpoints
    by_cases hc : r.ok = true ∧ r.bodyStatus ≠ some "error" <;> simp [hc]

/-- Witness for C3's amended theorem at a concrete success response. -/
theorem popup_post_counts_witness :
    (processFeatureRequests .keypoints_wiki "abc" respOk).length =
      (if respOk.ok = true ∧ respOk.bodyStatus ≠ some "error" then 2 else 1) :=
  (popup_post_counts "abc" respOk).2.2.2.2

/-- C4 counterexample: the segment_summary fetch never checks the HTTP
status; on a 500 whose JSON body is an application error the rendered
message is the body's error text, which does not contain "500". -/
theorem segment_500_message_cex :
    resp500.ok = false ∧ resp500.statusCode = 500 ∧
    segmentSummaryResult resp500 = .error "boom" ∧
    strContains "boom" "500" = false := by
  decide

/-- C4 amended: the generic popup dispatch and the content script's
quick handlers turn any non-ok HTTP status into an error result whose
message contains the status code; the segment_summary fetches perform no
HTTP status check at all — their result is computed from the JSON body
alone, unchanged under any ok flag or status code. -/
theorem http_status_error_handling :
    (∀ r : HttpResp, r.ok = false →
      processFeatureResult r
        = .error ("API responded with status " ++ toString r.statusCode) ∧
      quickActionResult r
        = .error ("API responded with status " ++ toString r.statusCode) ∧
      strContains ("API responded with status " ++ toString r.statusCode)
        (toString r.statusCode) = true) ∧
    (∀ (r : HttpResp) (b : Bool) (sc : Nat) (st : SegPanel),
      segResolve { r with ok := b, statusCode := sc } st = segResolve r st) := by
  constructor
  · intro r h
    refine ⟨?_, ?_, strContains_append_right _ _⟩ <;>
      simp [processFeatureResult, quickActionResult, h]
  · intro r b sc st
    by_cases hl : st.content = .loading
    · by_cases hs : r.bodyStatus = some "success" <;>
        simp [segResolve, segmentSummaryResult, hl, hs]
    · simp [segResolve, hl]

/-- Witness for C4's amended theorem at the concrete 500 response. -/
theorem http_status_error_handling_witness :
    processFeatureResult resp500
        = .error ("API responded with status " ++ toString resp500.statusCode) ∧
    segResolve { resp500 with ok := true, statusCode := 200 } SegPanel.start
        = segResolve resp500 SegPanel.start :=
  ⟨(http_status_error_handling.1 resp500 rfl).1,
    http_status_error_handling.2 resp500 true 200 SegPanel.start⟩

/-- C5 counterexample: the popup dispatch tests `status === 'error'`,
not "not success": a body status of "processing" is not "success", yet
the dispatch resolves to success, refuting the claim as stated. -/
theorem popup_nonerror_status_cex :
    respProcessing.bodyStatus ≠ some "success" ∧
    processFeatureResult respProcessing = .success respProcessing := by
  decide

/-- C5 amended: the popup dispatch treats exactly a body status of
"error" as an application error, with message taken from the body's
error field (defaulting to "Unknown error occurred" when absent) — any
other status value, "success" or not, proceeds as success; the content
script's quick handlers treat any status other than "success" as error
with the same message rule.  A body of `{status:"error", error:"quota
exceeded"}` yields the message exactly "quota exceeded". -/
theorem body_status_error_handling :
    (∀ r : HttpResp, r.ok = true → r.bodyStatus = some "error" →
      processFeatureResult r = .error (errorOrDefault r.bodyError)) ∧
    (∀ r : HttpResp, r.ok = true → r.bodyStatus ≠ some "error" →
      processFeatureResult r = .success r) ∧
    (∀ r : HttpResp, r.ok = true → r.bodyStatus ≠ some "success" →
      quickActionResult r = .error (errorOrDefault r.bodyError)) ∧
    errorOrDefault (some "quota exceeded") = "quota exceeded" ∧
    errorOrDefault none = "Unknown error occurred" := by
  refine ⟨?_, ?_, ?_, rfl, rfl⟩ <;> intro r hok hs <;>
    simp [processFeatureResult, quickActionResult, hok, hs]

/-- Witness for C5's amended theorem at the quota-exceeded response. -/
theorem body_status_error_handling_witness :
    processFeatureResult respQuota = .error (errorOrDefault respQuota.bodyError) ∧
    errorOrDefault (some "quota exceeded") = "quota exceeded" :=
  ⟨body_status_error_handling.1 respQuota rfl rfl,
    body_status_error_handling.2.2.2.1⟩

/-- C6 counterexample: after an in-page navigation from video "A"
(title "Old Title") to video "B" on which no title heading matches, the
mutation callback stores the new id but keeps the stale title "Old
Title" instead of the claimed "YouTube Video" fallback. -/
theorem navigation_stale_title_cex :
    (videoChangeStep domB (initPage domA)).currentVideoId = some "B" ∧
    (videoChangeStep domB (initPage domA)).currentVideoTitle = some "Old Title" ∧
    (some "Old Title" : Option String) ≠ some "YouTube Video" := by
  decide

/-- C6 amended: at initial load on a watch page with no matching title
heading, the title resolves to the literal "YouTube Video" (a total
function — no error path); on an in-page navigation the mutation
callback re-resolves the identifier, but when no title heading matches
it leaves the previously stored title unchanged rather than applying the
fallback. -/
theorem title_fallback_behavior :
    (∀ dom : PageDom, dom.isWatchPage = true → dom.titleElement = none →
      (initPage dom).currentVideoTitle = some "YouTube Video") ∧
    (∀ (dom : PageDom) (st : PageContext), dom.titleElement = none →
      (videoChangeStep dom st).currentVideoTitle = st.currentVideoTitle) := by
  constructor
  · intro dom hw ht
    simp [initPage, hw, ht]
  · intro dom st ht
    simp only [videoChangeStep, ht]
    split
    · split
      · split <;> rfl
      · rfl
    · rfl

/-- Witness for C6's amended theorem at concrete pages. -/
theorem title_fallback_behavior_witness :
    (initPage domNoV).currentVideoTitle = some "YouTube Video" ∧
    (videoChangeStep domB (initPage domA)).currentVideoTitle
      = (initPage domA).currentVideoTitle :=
  ⟨title_fallback_behavior.1 domNoV rfl rfl,
    title_fallback_behavior.2 domB (initPage domA) rfl⟩

/-- C7 counterexample: the bodies the popup POSTs to /api/timestamps and
/api/factcheck carry minLength and maxLength in addition to videoId,
refuting "exactly the field videoId". -/
theorem timestamps_body_extra_fields_cex :
    processFeatureRequests .timestamps "abc" respOk =
      [(baseUrl ++ "/api/timestamps",
        [("videoId", .jstr "abc"), ("minLength", .jnum 150),
          ("maxLength", .jnum 300)])] ∧
    processFeatureRequests .factcheck "abc" respOk =
      [(baseUrl ++ "/api/factcheck",
        [("videoId", .jstr "abc"), ("minLength", .jnum 150),
          ("maxLength", .jnum 300)])] := by
  decide

/-- C7 amended: the popup dispatch sends the same body
{videoId, minLength:150, maxLength:300} to every endpoint it calls,
including /api/timestamps and /api/factcheck; only the content script's
quickTimestamps action posts exactly {videoId} to /api/timestamps. -/
theorem request_bodies_shape :
    ∀ (v : String) (r : HttpResp) (vid : Option String),
      processFeatureRequests .timestamps v r
        = [(baseUrl ++ "/api/timestamps", popupGenericBody v)] ∧
      processFeatureRequests .factcheck v r
        = [(baseUrl ++ "/api/factcheck", popupGenericBody v)] ∧
      popupGenericBody v = [("videoId", .jstr v), ("minLength", .jnum 150),
        ("maxLength", .jnum 300)] ∧
      quickTimestampsBody vid = [("videoId", jOfOptStr vid)] := by
  intro v r vid
  exact ⟨rfl, rfl, rfl, rfl⟩

/-- C8 counterexample: a segment whose entry reached `ready` is reverted
to having no entry by the back button, which removes every
.segment-summary element — refuting "no transition is ever reverted
within one popup session". -/
theorem back_button_reverts_ready_cex :
    (segRun SegPanel.start [.click, .resolve respOk]).1.content
      = .ready (some "s") (some "0:12") ∧
    (segStep (segRun SegPanel.start [.click, .resolve respOk]).1 .back).1.content
      = .empty := by
  decide

/-- C8 amended: while the timestamps panel is open, a segment entry's
state only moves forward in the order no-entry → pending → (ready |
failed), and a ready or failed entry is never changed by a click or a
response event; pressing the back button, however, removes all segment
summaries and reverts every entry to the no-entry state. -/
theorem seg_transitions_monotone :
    ∀ (st : SegPanel) (e : SegEvent), e ≠ .back →
      st.content.rank ≤ ((segStep st e).1).content.rank ∧
      (st.content.rank = 2 → ((segStep st e).1).content = st.content) := by
  intro st e hne
  cases e with
  | click =>
    by_cases h : st.content = .empty
    · constructor
      · simp [segStep, segClick_of_empty st h, h, SegContent.rank]
      · intro h2
        rw [h] at h2
        simp [SegContent.rank] at h2
    · constructor
      · simp [segStep, segClick_of_ne_empty st h]
      · intro _
        simp [segStep, segClick_of_ne_empty st h]
  | resolve r =>
    by_cases h : st.content = .loading
    · constructor
      · have hstep : segStep st (.resolve r) = (segResolve r st, false) := rfl
        rw [hstep]
        unfold segResolve
        rw [if_pos h, h]
        cases segmentSummaryResult r <;> simp [SegContent.rank]
      · intro h2
        rw [h] at h2
        simp [SegContent.rank] at h2
    · have hr : segResolve r st = st := segResolve_of_not_loading r st h
      simp [segStep, hr]
  | back => exact absurd rfl hne

/-- Witness for C8's amended theorem: a click on a ready entry. -/
theorem seg_transitions_monotone_witness :
    (SegPanel.mk (.ready (some "s") none) false).content.rank ≤
      ((segStep ⟨.ready (some "s") none, false⟩ .click).1).content.rank ∧
    ((SegPanel.mk (.ready (some "s") none) false).content.rank = 2 →
      ((segStep ⟨.ready (some "s") none, false⟩ .click).1).content
        = (SegPanel.mk (.ready (some "s") none) false).content) :=
  seg_transitions_monotone ⟨.ready (some "s") none, false⟩ .click (by decide)

/-- C9: of the six extension-side action names, the content script's
message listener answers navigateToTime, getVideoDetails,
verifyConnection, quickSummarize and quickKeyPointsWiki — but it has no
quickTimestamps branch and sends no response for it: that block sits
outside the listener at top level (content.js 275-396), where `request`
is not in scope, even though the background script's context-menu
handler sends exactly that action expecting a response. -/
theorem quicktimestamps_listener_gap :
    ∀ (dom : PageDom) (ctx : PageContext) (vp : Bool),
      onMessageResponse dom ctx vp .quickTimestamps = none ∧
      (onMessageResponse dom ctx vp .navigateToTime).isSome = true ∧
      (onMessageResponse dom ctx vp .getVideoDetails).isSome = true ∧
      (onMessageResponse dom ctx vp .verifyConnection).isSome = true ∧
      (onMessageResponse dom ctx vp .quickSummarize).isSome = true ∧
      (onMessageResponse dom ctx vp .quickKeyPointsWiki).isSome = true := by
  intro dom ctx vp
  exact ⟨rfl, rfl, rfl, rfl, rfl, rfl⟩

/-- C10 counterexample: on a watch URL with no v parameter the content
script's globals hold a null video id, and the quickSummarize handler
POSTs a body whose videoId field is JSON null — refuting "no POST is
ever sent with a null or empty videoId". -/
theorem quick_action_null_videoid_cex :
    (initPage domNoV).currentVideoId = none ∧
    quickSummarizeBody (initPage domNoV).currentVideoId
      = [("videoId", .jnull), ("minLength", .jnum 100),
        ("maxLength", .jnum 200)] := by
  decide

/-- C10 amended: the popup card handler dispatches only when
currentVideoId is non-null and non-empty, so every popup-side request
carries a non-empty videoId; the content script's quick handlers apply
no such guard — they serialize whatever currentVideoId holds, sending
videoId null when it is unset. -/
theorem videoid_guard_behavior :
    (∀ (vid : Option String) (d : Bool) (v : String),
      cardClickDispatch vid d = some v → v ≠ "" ∧ vid = some v) ∧
    (∀ vid : Option String,
      quickSummarizeBody vid = [("videoId", jOfOptStr vid),
        ("minLength", .jnum 100), ("maxLength", .jnum 200)] ∧
      quickKeyPointsWikiBody vid = [("videoId", jOfOptStr vid),
        ("numPoints", .jnum 5)] ∧
      quickTimestampsBody vid = [("videoId", jOfOptStr vid)]) ∧
    jOfOptStr none = .jnull := by
  refine ⟨?_, fun vid => ⟨rfl, rfl, rfl⟩, rfl⟩
  intro vid d v h
  cases vid with
  | none => simp [cardClickDispatch] at h
  | some w =>
    have h2 : (if w = "" ∨ d = true then none else some w) = some v := h
    by_cases hw : w = "" ∨ d = true
    · rw [if_pos hw] at h2
      exact absurd h2 (by simp)
    · rw [if_neg hw] at h2
      have hv : w = v := by simpa using h2
      subst hv
      exact ⟨fun he => hw (Or.inl he), rfl⟩

/-- Witness for C10's amended theorem at a concrete enabled card. -/
theorem videoid_guard_behavior_witness :
    ("abc" ≠ "" ∧ (some "abc" : Option String) = some "abc") :=
  videoid_guard_behavior.1 (some "abc") false "abc" (by decide)

end YoutubeBot
